import Mathlib

/-!
Verification of the Green-Energy-Predictive-Advisor calculation engine
(`src/engine.py`) against its natural-language specification.

The engine is embedded shallowly:

* Python floats are modelled as exact rationals (`ℚ`).
* Python `round(x, n)` (round-half-to-even on the scaled value) is modelled
  by `pyRound`, and the one-argument `round(x)` (returning an int) by
  `pyRoundInt`.
* JSON catalog values that feed `_safe_band` / `float(...)` are modelled by
  `JVal` (a value `float()` accepts, carrying its numeric value, or a value
  `float()` rejects) and `FieldVal` (a JSON array of `JVal`s, or any
  non-sequence value, the latter also standing for a missing field, which
  `.get` turns into `None`).
* Functions that can raise return `Except Err _`; `Err` distinguishes
  Python's `KeyError` and `ValueError`.
* Python dicts used as ordered catalogs (the tier catalog) are association
  lists `List (String × Tier)` preserving insertion order; keyed databases
  whose order never matters are `String → Option _`.
-/

deriving instance DecidableEq for Except

namespace Engine

/-- Python's `round` to an integer: round half to even (banker's rounding),
as CPython does for floats; here on exact rationals. -/
def pyRoundInt (q : ℚ) : ℤ :=
  if q - ⌊q⌋ < 1/2 then ⌊q⌋
  else if 1/2 < q - ⌊q⌋ then ⌊q⌋ + 1
  else if 2 ∣ ⌊q⌋ then ⌊q⌋ else ⌊q⌋ + 1

/-- Python's `round(x, d)`: scale by `10^d`, round half to even, scale back. -/
def pyRound (d : ℕ) (q : ℚ) : ℚ :=
  (pyRoundInt (q * 10 ^ d) : ℚ) / 10 ^ d

/-- Exceptions the engine can raise: Python `KeyError` (not-found) and
`ValueError` (validation / failed numeric conversion). -/
inductive Err where
  | keyError (msg : String)
  | valueError (msg : String)
deriving DecidableEq, Repr

/-- A JSON scalar as seen by `float(...)`: either a value the conversion
accepts (a number, bool, or numeric string — we carry the resulting
rational), or one it rejects with `TypeError`/`ValueError`. -/
inductive JVal where
  | num (q : ℚ)
  | bad
deriving DecidableEq, Repr

/-- A JSON value in a band-typed field: a sequence (list/tuple) of scalars,
or anything else (a non-sequence value, or the `None` produced by `.get`
for a missing key). -/
inductive FieldVal where
  | arr (xs : List JVal)
  | notArr
deriving DecidableEq, Repr

/-- Embedding of `_safe_band` (src/engine.py:47-56): a 3-element sequence
whose members all convert to float yields those three numbers; anything
else yields `(0.0, 0.0, 0.0)`. -/
def safe_band (v : FieldVal) : ℚ × ℚ × ℚ :=
  match v with
  | .arr [.num a, .num b, .num c] => (a, b, c)
  | _ => (0, 0, 0)

/-- Boolean test for the well-formed case of `safe_band`. -/
def isNumTriple (v : FieldVal) : Bool :=
  match v with
  | .arr [.num _, .num _, .num _] => true
  | _ => false

/-- Embedding of `float(...)` on a `JVal`. -/
def floatOfJVal (v : JVal) : Except Err ℚ :=
  match v with
  | .num q => .ok q
  | .bad => .error (.valueError "could not convert value to float")

/-- Embedding of `d.get(k, default)` followed by `float(...)`. -/
def getFloatD (v : Option JVal) (dflt : ℚ) : Except Err ℚ :=
  match v with
  | none => .ok dflt
  | some x => floatOfJVal x

/-- An archetype catalog entry: the two band-typed fields the engine reads. -/
structure Archetype where
  base_load_kwh_day : FieldVal
  base_peak_w : FieldVal
deriving DecidableEq, Repr

/-- A pack catalog entry: the two band-typed fields the engine reads. -/
structure Pack where
  kwh_day : FieldVal
  peak_w : FieldVal
deriving DecidableEq, Repr

/-- A per-city solar yield entry (`solar_generation.json`). -/
structure SolarCity where
  summer_kwh_per_kwp : Option JVal
  winter_kwh_per_kwp : Option JVal
deriving DecidableEq, Repr

/-- The read-only databases loaded at module import (src/engine.py:20-27),
passed explicitly in the embedding. -/
structure Dbs where
  archetypes : String → Option Archetype
  packs_ac1p : String → Option Pack
  packs_ac3p : String → Option Pack
  packs_dc12v : String → Option Pack
  packs_dc24v : String → Option Pack
  packs_dc48v : String → Option Pack
  solar : String → Option SolarCity

/-- Embedding of Python's `str.lower()` on the ASCII group names:
character-wise ASCII lowercasing (equivalent to `String.toLower`, stated
over the character list so it computes in proofs). -/
def lowerStr (s : String) : String :=
  ⟨s.data.map Char.toLower⟩

/-- Embedding of `_get_pack_db` (src/engine.py:32-44): lowercase the group
name, dispatch over the synonym sets, `KeyError` for anything else. -/
def get_pack_db (dbs : Dbs) (group : String) : Except Err (String → Option Pack) :=
  let g := lowerStr group
  if g = "ac1p" ∨ g = "ac" ∨ g = "ac_1p" then .ok dbs.packs_ac1p
  else if g = "ac3p" ∨ g = "ac_3p" then .ok dbs.packs_ac3p
  else if g = "dc12" ∨ g = "dc12v" then .ok dbs.packs_dc12v
  else if g = "dc24" ∨ g = "dc24v" then .ok dbs.packs_dc24v
  else if g = "dc48" ∨ g = "dc48v" then .ok dbs.packs_dc48v
  else .error (.keyError ("Unknown pack group: " ++ g))

/-- One pack selection item (the dicts in the `packs` argument of
`compute_load_profile`): effective group string (the dict-level default
`"ac1p"` already applied), optional key, and the raw `usage_index` int. -/
structure PackSel where
  group : String
  key : Option String
  usage_index : ℤ
deriving DecidableEq, Repr

/-- The six running accumulators of `compute_load_profile`
(src/engine.py:69-70). -/
structure LoadState where
  min_kwh : ℚ
  avg_kwh : ℚ
  max_kwh : ℚ
  peak_min : ℚ
  peak_avg : ℚ
  peak_max : ℚ
deriving DecidableEq, Repr

/-- Tuple indexing `band[i]` for `i` already clamped into `{0, 1, 2}`. -/
def bandGet (b : ℚ × ℚ × ℚ) (i : ℤ) : ℚ :=
  if i ≤ 0 then b.1 else if i = 1 then b.2.1 else b.2.2

/-- Loop body of the pack loop in `compute_load_profile`
(src/engine.py:88-127): clamp the usage index, resolve the group
(`KeyError` when unknown), skip silently when the key does not resolve,
otherwise add the energy value at the index into the matching accumulator,
take running maxima for the peak value, and widen the band when the
typical index is selected. -/
def applyPack (dbs : Dbs) (s : LoadState) (item : PackSel) : Except Err LoadState :=
  let ui := max 0 (min item.usage_index 2)
  match get_pack_db dbs item.group with
  | .error e => .error e
  | .ok pack_db =>
    match item.key.bind pack_db with
    | none => .ok s
    | some pack =>
      let kwh_band := safe_band pack.kwh_day
      let peak_band := safe_band pack.peak_w
      let kwh_val := bandGet kwh_band ui
      let peak_val := bandGet peak_band ui
      let s1 :=
        if ui = 0 then { s with min_kwh := s.min_kwh + kwh_val }
        else if ui = 1 then { s with avg_kwh := s.avg_kwh + kwh_val }
        else { s with max_kwh := s.max_kwh + kwh_val }
      let s2 :=
        if ui = 0 then { s1 with peak_min := max s1.peak_min peak_val }
        else if ui = 1 then { s1 with peak_avg := max s1.peak_avg peak_val }
        else { s1 with peak_max := max s1.peak_max peak_val }
      let s3 :=
        if ui = 1 then
          { s2 with
            min_kwh := s2.min_kwh + kwh_band.1
            max_kwh := s2.max_kwh + kwh_band.2.2
            peak_min := max s2.peak_min peak_band.1
            peak_max := max s2.peak_max peak_band.2.2 }
        else s2
      .ok s3

/-- The all-zero initial accumulator state. -/
def initState : LoadState := ⟨0, 0, 0, 0, 0, 0⟩

/-- Archetype-baseline step of `compute_load_profile` (src/engine.py:73-85):
skipped in expert mode or when the archetype id is falsy; `KeyError` for an
unknown id; otherwise the energy band is added into the (zero) accumulators
and the peak band max-ed in. -/
def archStep (dbs : Dbs) (archetype_id : Option String) (expert_mode : Bool) :
    Except Err LoadState :=
  if expert_mode then .ok initState
  else
    match archetype_id with
    | none => .ok initState
    | some aid =>
      if aid = "" then .ok initState
      else
        match dbs.archetypes aid with
        | none => .error (.keyError ("Archetype '" ++ aid ++ "' not found."))
        | some arch =>
          let b := safe_band arch.base_load_kwh_day
          let p := safe_band arch.base_peak_w
          .ok ⟨b.1, b.2.1, b.2.2, max 0 p.1, max 0 p.2.1, max 0 p.2.2⟩

/-- The profile value returned by `compute_load_profile`
(src/engine.py:137-146). -/
structure LoadProfile where
  archetype : Option String
  expert_mode : Bool
  daily_kwh_band : ℚ × ℚ × ℚ
  peak_power_band_w : ℤ × ℤ × ℤ
deriving DecidableEq, Repr

/-- Consistency normalization and rounding at the end of
`compute_load_profile` (src/engine.py:129-146). -/
def finalizeLoad (archetype_id : Option String) (expert_mode : Bool)
    (s : LoadState) : LoadProfile :=
  let max1 := if s.max_kwh = 0 ∧ 0 < s.avg_kwh then s.avg_kwh else s.max_kwh
  let min2 := min s.min_kwh (min s.avg_kwh max1)
  let max2 := max max1 (max s.avg_kwh min2)
  let avg2 := if s.avg_kwh < min2 then min2 else s.avg_kwh
  { archetype := archetype_id
    expert_mode := expert_mode
    daily_kwh_band := (pyRound 3 min2, pyRound 3 avg2, pyRound 3 max2)
    peak_power_band_w :=
      (pyRoundInt s.peak_min, pyRoundInt s.peak_avg, pyRoundInt s.peak_max) }

/-- The `for item in packs` loop of `compute_load_profile`
(src/engine.py:88-127), threading the accumulator state and propagating
the first raised error. -/
def packsLoop (dbs : Dbs) (s : LoadState) : List PackSel → Except Err LoadState
  | [] => .ok s
  | item :: rest =>
    match applyPack dbs s item with
    | .error e => .error e
    | .ok s2 => packsLoop dbs s2 rest

/-- Embedding of `compute_load_profile` (src/engine.py:61-146). -/
def compute_load_profile (dbs : Dbs) (archetype_id : Option String)
    (expert_mode : Bool) (packs : List PackSel) : Except Err LoadProfile :=
  match archStep dbs archetype_id expert_mode with
  | .error e => .error e
  | .ok s0 =>
    match packsLoop dbs s0 packs with
    | .error e => .error e
    | .ok s => .ok (finalizeLoad archetype_id expert_mode s)

/-- The value returned by `compute_solar_profile` (src/engine.py:170-177). -/
structure SolarProfile where
  city : String
  wp : ℚ
  kwp : ℚ
  summer_daily_kwh : ℚ
  winter_daily_kwh : ℚ
  avg_daily_kwh : ℚ
deriving DecidableEq, Repr

/-- Embedding of `compute_solar_profile` (src/engine.py:149-177):
`ValueError` for an empty city, `KeyError` for a city absent from the solar
catalog, otherwise kWp = wattage / 1000, seasonal dailies as coefficient ×
kWp, and the 0.6/0.4 summer/winter weighted average, the three daily
outputs rounded to 3 decimals. -/
def compute_solar_profile (solar_db : String → Option SolarCity)
    (city : String) (solar_wp : ℚ) : Except Err SolarProfile :=
  if city = "" then
    .error (.valueError "City is required for solar calculation.")
  else
    match solar_db city with
    | none => .error (.keyError ("City '" ++ city ++ "' not found in solar_generation.json"))
    | some solar_city =>
      match getFloatD solar_city.summer_kwh_per_kwp 0,
            getFloatD solar_city.winter_kwh_per_kwp 0 with
      | .error e, _ => .error e
      | .ok _, .error e => .error e
      | .ok summer_kwh_per_kwp, .ok winter_kwh_per_kwp =>
        let kwp := solar_wp / 1000
        let summer_daily := summer_kwh_per_kwp * kwp
        let winter_daily := winter_kwh_per_kwp * kwp
        let avg_daily := summer_daily * 0.6 + winter_daily * 0.4
        .ok
          { city := city
            wp := solar_wp
            kwp := kwp
            summer_daily_kwh := pyRound 3 summer_daily
            winter_daily_kwh := pyRound 3 winter_daily
            avg_daily_kwh := pyRound 3 avg_daily }

/-- The value returned by `compute_savings_profile` (src/engine.py:205-214). -/
structure SavingsProfile where
  daily_offset_kwh : ℚ
  year1_savings_tl : ℚ
  multi_year_savings_tl : ℚ
  yearly_co2_kg : ℚ
  electricity_price_tl_per_kwh : ℚ
  price_growth_rate : ℚ
  horizon_years : ℤ
  co2_kg_per_kwh : ℚ
deriving DecidableEq, Repr

/-- Embedding of `compute_savings_profile` (src/engine.py:180-214).
The Python defaults (price 3.1, growth 0.25, horizon 5, CO2 0.45) are
supplied explicitly by callers. -/
def compute_savings_profile (avg_kwh_consumption avg_kwh_solar : ℚ)
    (electricity_price_tl_per_kwh : ℚ) (price_growth_rate : ℚ)
    (horizon_years : ℤ) (co2_kg_per_kwh : ℚ) : SavingsProfile :=
  let daily_offset_kwh := min avg_kwh_consumption avg_kwh_solar
  let daily_co2_kg := daily_offset_kwh * co2_kg_per_kwh
  let year1_savings := daily_offset_kwh * electricity_price_tl_per_kwh * 365
  let multi_year_savings :=
    (List.range horizon_years.toNat).foldl
      (fun acc year =>
        acc + daily_offset_kwh *
          (electricity_price_tl_per_kwh * (1 + price_growth_rate) ^ year) * 365)
      0
  let yearly_co2 := daily_co2_kg * 365
  { daily_offset_kwh := pyRound 3 daily_offset_kwh
    year1_savings_tl := pyRound 2 year1_savings
    multi_year_savings_tl := pyRound 2 multi_year_savings
    yearly_co2_kg := pyRound 2 yearly_co2
    electricity_price_tl_per_kwh := electricity_price_tl_per_kwh
    price_growth_rate := price_growth_rate
    horizon_years := horizon_years
    co2_kg_per_kwh := co2_kg_per_kwh }

/-- A tier catalog entry (`ecoflow_tiers.json`): the fields the engine
reads. `tier_id` models a `"tier_id"` key already present in the catalog
entry, which `setdefault` would keep. -/
structure Tier where
  tier_id : Option String
  capacity_wh_total : Option JVal
  inverter_w_continuous : Option JVal
deriving DecidableEq, Repr

/-- One returned recommendation: the tier data plus its `tier_id` field as
set by `tier_copy.setdefault("tier_id", tier_id)` (src/engine.py:248). -/
structure RecEntry where
  tier_id : String
  data : Tier
deriving DecidableEq, Repr

/-- The profile dict as read by `recommend_ecoflow_tiers`: the two
band-typed fields it extracts with `.get` + `_safe_band`
(src/engine.py:224-225). -/
structure RecProfile where
  daily_kwh_band : FieldVal
  peak_power_band_w : FieldVal
deriving DecidableEq, Repr

/-- Required-inverter sizing of `recommend_ecoflow_tiers`
(src/engine.py:228-231): `peak_band[2] or peak_band[1]`, then × 1.2 when
that is truthy, else 0. -/
def required_inverter_w (peak_band : ℚ × ℚ × ℚ) : ℚ :=
  let peak_max := if peak_band.2.2 ≠ 0 then peak_band.2.2 else peak_band.2.1
  if peak_max ≠ 0 then peak_max * 1.2 else 0

/-- The entry appended for tier `tid` with data `td`: a copy of the data
with `tier_id` defaulted to the catalog key. -/
def mkRecEntry (tid : String) (td : Tier) : RecEntry :=
  ⟨td.tier_id.getD tid, td⟩

/-- Required capacity of `recommend_ecoflow_tiers` (src/engine.py:227-230):
typical daily kWh × 1000. -/
def required_capacity_wh (profile : RecProfile) : ℚ :=
  (safe_band profile.daily_kwh_band).2.1 * 1000

/-- Required inverter wattage of `recommend_ecoflow_tiers`, from the
profile's peak band. -/
def required_inverter_of (profile : RecProfile) : ℚ :=
  required_inverter_w (safe_band profile.peak_power_band_w)

/-- The eligibility filter of `recommend_ecoflow_tiers`
(src/engine.py:235-249): keep tiers whose two numeric fields are present
and parse, and that meet both thresholds; each kept entry carries its
parsed capacity (the sort key). -/
def eligible_tiers (tiers : List (String × Tier)) (required_capacity_wh required_inverter : ℚ) :
    List (RecEntry × ℚ) :=
  tiers.filterMap fun kv =>
    match kv.2.capacity_wh_total, kv.2.inverter_w_continuous with
    | some (.num c), some (.num i) =>
      if required_capacity_wh ≤ c ∧ required_inverter ≤ i then
        some (mkRecEntry kv.1 kv.2, c)
      else none
    | _, _ => none

/-- The eligible list after the stable ascending-by-capacity sort
(src/engine.py:251). -/
def sorted_eligible (tiers : List (String × Tier)) (required_capacity_wh required_inverter : ℚ) :
    List (RecEntry × ℚ) :=
  (eligible_tiers tiers required_capacity_wh required_inverter).mergeSort
    fun a b => decide (a.2 ≤ b.2)

/-- The sort key of the fallback sort (src/engine.py:261):
`float(tier.get("capacity_wh_total", 0))`, which raises `ValueError` on a
present but non-numeric value. -/
def fallback_cap (td : Tier) : Except Err ℚ :=
  match td.capacity_wh_total with
  | none => .ok 0
  | some v => floatOfJVal v

/-- First element of `sorted(xs, key, reverse=True)` for a stable sort: the
earliest element whose key is maximal. -/
def argmax_first (xs : List ((String × Tier) × ℚ)) : Option ((String × Tier) × ℚ) :=
  match xs with
  | [] => none
  | x :: rest => some (rest.foldl (fun best y => if best.2 < y.2 then y else best) x)

/-- Key extraction performed by the fallback sort (src/engine.py:259-263)
on every catalog item in order, raising at the first non-numeric capacity. -/
def capsLoop : List (String × Tier) → Except Err (List ((String × Tier) × ℚ))
  | [] => .ok []
  | kv :: rest =>
    match fallback_cap kv.2 with
    | .error e => .error e
    | .ok c =>
      match capsLoop rest with
      | .error e => .error e
      | .ok cs => .ok ((kv, c) :: cs)

/-- Embedding of `recommend_ecoflow_tiers` (src/engine.py:217-270):
threshold filter, ascending capacity sort, and the fallback policy
(`tier_2_comfort` if present, else the largest-capacity tier, else an
empty list for an empty catalog). -/
def recommend_ecoflow_tiers (tiers : List (String × Tier)) (profile : RecProfile) :
    Except Err (List RecEntry) :=
  let recommendations :=
    sorted_eligible tiers (required_capacity_wh profile) (required_inverter_of profile)
  if recommendations.isEmpty then
    match List.lookup "tier_2_comfort" tiers with
    | some td => .ok [mkRecEntry "tier_2_comfort" td]
    | none =>
      match capsLoop tiers with
      | .error e => .error e
      | .ok withCaps =>
        match argmax_first withCaps with
        | some best => .ok [mkRecEntry best.1.1 best.1.2]
        | none => .ok []
  else
    .ok (recommendations.map Prod.fst)

/-- The composite profile returned by `calculate_energy_profile`
(src/engine.py:299-315). -/
structure EnergyProfile where
  archetype : Option String
  expert_mode : Bool
  daily_kwh_band : ℚ × ℚ × ℚ
  peak_power_band_w : ℤ × ℤ × ℤ
  selected_packs : List (Option String)
  solar : Option SolarProfile
  savings : Option SavingsProfile
deriving DecidableEq, Repr

/-- Embedding of `calculate_energy_profile` (src/engine.py:273-315): rich
packs win when non-empty, else legacy keys become AC1P/typical selections;
the solar and savings sections are attached only when the city is truthy
and the wattage is truthy and positive. -/
def calculate_energy_profile (dbs : Dbs) (archetype_id : Option String)
    (packs : Option (List String)) (expert_mode : Bool)
    (rich_packs : Option (List PackSel)) (city : Option String)
    (solar_wp : Option ℚ) : Except Err EnergyProfile :=
  let resolved_packs : List PackSel :=
    match rich_packs with
    | some (p :: ps) => p :: ps
    | _ =>
      match packs with
      | some (k :: ks) => (k :: ks).map fun key => ⟨"ac1p", some key, 1⟩
      | _ => []
  match compute_load_profile dbs archetype_id expert_mode resolved_packs with
  | .error e => .error e
  | .ok load =>
    let base : EnergyProfile :=
      { archetype := load.archetype
        expert_mode := load.expert_mode
        daily_kwh_band := load.daily_kwh_band
        peak_power_band_w := load.peak_power_band_w
        selected_packs := resolved_packs.map (·.key)
        solar := none
        savings := none }
    match city, solar_wp with
    | some c, some w =>
      if c ≠ "" ∧ w ≠ 0 ∧ 0 < w then
        match compute_solar_profile dbs.solar c w with
        | .error e => .error e
        | .ok solar =>
          let savings := compute_savings_profile load.daily_kwh_band.2.1
            solar.avg_daily_kwh 3.1 0.25 5 0.45
          .ok { base with solar := some solar, savings := some savings }
      else .ok base
    | _, _ => .ok base

/-! ## Helper lemmas -/

lemma pyRoundInt_ge_floor (q : ℚ) : ⌊q⌋ ≤ pyRoundInt q := by
  unfold pyRoundInt
  split_ifs <;> omega

lemma pyRoundInt_le_floor_add_one (q : ℚ) : pyRoundInt q ≤ ⌊q⌋ + 1 := by
  unfold pyRoundInt
  split_ifs <;> omega

lemma pyRoundInt_mono {a b : ℚ} (hab : a ≤ b) : pyRoundInt a ≤ pyRoundInt b := by
  have hf : ⌊a⌋ ≤ ⌊b⌋ := Int.floor_le_floor hab
  rcases eq_or_lt_of_le hf with heq | hlt
  · unfold pyRoundInt
    rw [← heq]
    have hr : a - ⌊a⌋ ≤ b - ⌊a⌋ := by linarith
    split_ifs <;> first | omega | linarith
  · calc pyRoundInt a ≤ ⌊a⌋ + 1 := pyRoundInt_le_floor_add_one a
      _ ≤ ⌊b⌋ := by omega
      _ ≤ pyRoundInt b := pyRoundInt_ge_floor b

lemma pyRound_mono (d : ℕ) {a b : ℚ} (hab : a ≤ b) : pyRound d a ≤ pyRound d b := by
  unfold pyRound
  have h10 : (0 : ℚ) < 10 ^ d := by positivity
  have h1 : a * 10 ^ d ≤ b * 10 ^ d := by
    exact mul_le_mul_of_nonneg_right hab (le_of_lt h10)
  have h2 : pyRoundInt (a * 10 ^ d) ≤ pyRoundInt (b * 10 ^ d) := pyRoundInt_mono h1
  have h3 : ((pyRoundInt (a * 10 ^ d) : ℚ)) ≤ (pyRoundInt (b * 10 ^ d) : ℚ) := by
    exact_mod_cast h2
  exact div_le_div_of_nonneg_right h3 (le_of_lt h10)

lemma finalizeLoad_daily_sorted (archetype_id : Option String) (expert_mode : Bool)
    (s : LoadState) :
    (finalizeLoad archetype_id expert_mode s).daily_kwh_band.1 ≤
        (finalizeLoad archetype_id expert_mode s).daily_kwh_band.2.1 ∧
      (finalizeLoad archetype_id expert_mode s).daily_kwh_band.2.1 ≤
        (finalizeLoad archetype_id expert_mode s).daily_kwh_band.2.2 := by
  unfold finalizeLoad
  set max1 := if s.max_kwh = 0 ∧ 0 < s.avg_kwh then s.avg_kwh else s.max_kwh with hmax1
  set min2 := min s.min_kwh (min s.avg_kwh max1) with hmin2
  set max2 := max max1 (max s.avg_kwh min2) with hmax2
  set avg2 := if s.avg_kwh < min2 then min2 else s.avg_kwh with havg2
  have h1 : min2 ≤ avg2 := by
    rw [havg2]
    split_ifs with h
    · exact le_refl _
    · calc min2 ≤ min s.avg_kwh max1 := min_le_right _ _
        _ ≤ s.avg_kwh := min_le_left _ _
  have h2 : avg2 ≤ max2 := by
    rw [havg2]
    split_ifs with h
    · calc min2 ≤ max s.avg_kwh min2 := le_max_right _ _
        _ ≤ max2 := le_max_right _ _
    · calc s.avg_kwh ≤ max s.avg_kwh min2 := le_max_left _ _
        _ ≤ max2 := le_max_right _ _
  exact ⟨pyRound_mono 3 h1, pyRound_mono 3 h2⟩

/-! ## Concrete data used by witnesses and counterexamples -/

/-- A small concrete database: the archetype and pack of the spec's worked
example (base load (2, 3, 4.5) kWh, base peak (200, 400, 800) W; pack
(0.5, 1, 2) kWh, (50, 100, 300) W) and the Istanbul solar yields
(5.2, 2.8). -/
def demoDbs : Dbs where
  archetypes := fun a =>
    if a = "home" then
      some ⟨.arr [.num 2, .num 3, .num (9/2)], .arr [.num 200, .num 400, .num 800]⟩
    else none
  packs_ac1p := fun k =>
    if k = "p" then
      some ⟨.arr [.num (1/2), .num 1, .num 2], .arr [.num 50, .num 100, .num 300]⟩
    else none
  packs_ac3p := fun _ => none
  packs_dc12v := fun _ => none
  packs_dc24v := fun _ => none
  packs_dc48v := fun _ => none
  solar := fun c =>
    if c = "Istanbul" then some ⟨some (.num (26/5)), some (.num (14/5))⟩ else none

/-- The load profile `compute_load_profile` produces on `demoDbs` for the
archetype alone. -/
def demoLoadProfile : LoadProfile :=
  ⟨some "home", false, (2, 3, 9/2), (200, 400, 800)⟩

/-! ## C1 -/

/-- C1 (amended): for every input on which `compute_load_profile` returns,
the returned `daily_kwh_band` satisfies min ≤ typical ≤ max. (The original
claim also asserted this for `peak_power_band_w`, which the code does not
normalize; see the counterexample.) -/
theorem claim1_daily_band_ordered (dbs : Dbs) (archetype_id : Option String)
    (expert_mode : Bool) (packs : List PackSel) (p : LoadProfile)
    (h : compute_load_profile dbs archetype_id expert_mode packs = .ok p) :
    p.daily_kwh_band.1 ≤ p.daily_kwh_band.2.1 ∧
      p.daily_kwh_band.2.1 ≤ p.daily_kwh_band.2.2 := by
  unfold compute_load_profile at h
  cases ha : archStep dbs archetype_id expert_mode with
  | error e => rw [ha] at h; simp at h
  | ok s0 =>
    rw [ha] at h
    dsimp only at h
    cases hl : packsLoop dbs s0 packs with
    | error e => rw [hl] at h; simp at h
    | ok s =>
      rw [hl] at h
      simp only [Except.ok.injEq] at h
      subst h
      exact finalizeLoad_daily_sorted archetype_id expert_mode s

lemma lowerStr_ac1p : lowerStr "ac1p" = "ac1p" := by decide

/-- Evaluation of the engine on one usage_index = 0 pack selection: the
peak band comes out as (50, 0, 0). -/
lemma demo_ui0_eval :
    compute_load_profile demoDbs none true [⟨"ac1p", some "p", 0⟩] =
      .ok ⟨none, true, (0, 0, 0), (50, 0, 0)⟩ := by
  simp only [compute_load_profile, archStep, demoDbs, safe_band, packsLoop, applyPack,
    get_pack_db, bandGet, finalizeLoad, initState, lowerStr_ac1p, String.reduceEq, reduceIte]
  norm_num [pyRound, pyRoundInt, min_def, max_def, -Int.self_sub_floor]

/-- Evaluation of the engine on the spec's worked example (archetype only). -/
lemma demo_home_eval :
    compute_load_profile demoDbs (some "home") false [] = .ok demoLoadProfile := by
  simp only [compute_load_profile, archStep, demoDbs, safe_band, packsLoop, finalizeLoad,
    demoLoadProfile, initState, String.reduceEq, reduceIte]
  norm_num [pyRound, pyRoundInt, min_def, max_def, -Int.self_sub_floor]

/-- C1 counterexample: on a single pack selection with usage_index = 0
(pack peak band (50, 100, 300)), the returned peak band is (50, 0, 0),
violating min ≤ typical; the claim as stated is false for
`peak_power_band_w`. -/
theorem claim1_cex :
    ¬ (∀ p : LoadProfile,
        compute_load_profile demoDbs none true [⟨"ac1p", some "p", 0⟩] = .ok p →
          (p.peak_power_band_w.1 ≤ p.peak_power_band_w.2.1 ∧
            p.peak_power_band_w.2.1 ≤ p.peak_power_band_w.2.2)) := by
  intro h
  have h2 := (h ⟨none, true, (0, 0, 0), (50, 0, 0)⟩ demo_ui0_eval).1
  exact absurd h2 (by norm_num)

/-- C1 witness: the amended theorem applied to the spec's worked example. -/
theorem claim1_witness :
    compute_load_profile demoDbs (some "home") false [] = .ok demoLoadProfile ∧
      (demoLoadProfile.daily_kwh_band.1 ≤ demoLoadProfile.daily_kwh_band.2.1 ∧
        demoLoadProfile.daily_kwh_band.2.1 ≤ demoLoadProfile.daily_kwh_band.2.2) :=
  ⟨demo_home_eval,
    claim1_daily_band_ordered demoDbs (some "home") false [] demoLoadProfile demo_home_eval⟩

/-! ## C3 -/

/-- The pack entry stored in `demoDbs.packs_ac1p` under key `"p"`. -/
def demoPack : Pack :=
  ⟨.arr [.num (1/2), .num 1, .num 2], .arr [.num 50, .num 100, .num 300]⟩

/-- C3: in the pack loop of `compute_load_profile` (loop body `applyPack`),
a selection with usage_index = 1 whose key resolves adds the pack's
typical energy to the typical accumulator, its min/max energy to the
min/max accumulators, and raises each peak accumulator by a running
maximum with the pack's corresponding peak value (so the min/max peak
accumulators end at least at the pack's min/max peak values). -/
theorem claim3_widening (dbs : Dbs) (s : LoadState) (item : PackSel)
    (db : String → Option Pack) (p : Pack)
    (hdb : get_pack_db dbs item.group = .ok db)
    (hp : item.key.bind db = some p)
    (hui : item.usage_index = 1) :
    applyPack dbs s item = .ok
      { min_kwh := s.min_kwh + (safe_band p.kwh_day).1
        avg_kwh := s.avg_kwh + (safe_band p.kwh_day).2.1
        max_kwh := s.max_kwh + (safe_band p.kwh_day).2.2
        peak_min := max s.peak_min (safe_band p.peak_w).1
        peak_avg := max s.peak_avg (safe_band p.peak_w).2.1
        peak_max := max s.peak_max (safe_band p.peak_w).2.2 } ∧
      (safe_band p.peak_w).1 ≤ max s.peak_min (safe_band p.peak_w).1 ∧
      (safe_band p.peak_w).2.2 ≤ max s.peak_max (safe_band p.peak_w).2.2 := by
  refine ⟨?_, le_max_right _ _, le_max_right _ _⟩
  unfold applyPack
  rw [hdb, hui]
  dsimp only
  rw [hp]
  norm_num [bandGet]

/-- C3 witness: the widening rule applied to the concrete demo pack. -/
theorem claim3_witness :
    applyPack demoDbs initState ⟨"ac1p", some "p", 1⟩ = .ok
      { min_kwh := initState.min_kwh + (safe_band demoPack.kwh_day).1
        avg_kwh := initState.avg_kwh + (safe_band demoPack.kwh_day).2.1
        max_kwh := initState.max_kwh + (safe_band demoPack.kwh_day).2.2
        peak_min := max initState.peak_min (safe_band demoPack.peak_w).1
        peak_avg := max initState.peak_avg (safe_band demoPack.peak_w).2.1
        peak_max := max initState.peak_max (safe_band demoPack.peak_w).2.2 } ∧
      (safe_band demoPack.peak_w).1 ≤ max initState.peak_min (safe_band demoPack.peak_w).1 ∧
      (safe_band demoPack.peak_w).2.2 ≤ max initState.peak_max (safe_band demoPack.peak_w).2.2 :=
  claim3_widening demoDbs initState ⟨"ac1p", some "p", 1⟩ demoDbs.packs_ac1p demoPack
    (by simp only [get_pack_db, lowerStr_ac1p, String.reduceEq, reduceIte, true_or, if_true])
    rfl rfl

/-! ## C6 -/

lemma lowerStr_weird : lowerStr "weird" = "weird" := by decide

/-- C6: per pack selection (loop body `applyPack` of `compute_load_profile`),
an unknown pack group raises the `KeyError` produced by `_get_pack_db`
(a Not-Found error), while a known group with a key that does not resolve
in that group's catalog is silently skipped: no error and the accumulator
state is returned unchanged. -/
theorem claim6_group_error_key_skip (dbs : Dbs) (s : LoadState) (item : PackSel) :
    (∀ e, get_pack_db dbs item.group = .error e →
        applyPack dbs s item = .error e ∧ ∃ msg, e = .keyError msg) ∧
    (∀ db, get_pack_db dbs item.group = .ok db → item.key.bind db = none →
        applyPack dbs s item = .ok s) := by
  constructor
  · intro e he
    constructor
    · unfold applyPack
      rw [he]
    · unfold get_pack_db at he
      dsimp only at he
      split_ifs at he
      simp only [Except.error.injEq] at he
      exact ⟨_, he.symm⟩
  · intro db hdb hnone
    unfold applyPack
    rw [hdb]
    dsimp only
    rw [hnone]

/-- C6 witness: the unknown group `"weird"` raises, and the known group
`"ac1p"` with the stale key `"zzz"` is skipped leaving the state unchanged. -/
theorem claim6_witness :
    (applyPack demoDbs initState ⟨"weird", some "p", 0⟩ =
        .error (.keyError ("Unknown pack group: " ++ "weird")) ∧
      ∃ msg, (Err.keyError ("Unknown pack group: " ++ "weird")) = .keyError msg) ∧
      applyPack demoDbs initState ⟨"ac1p", some "zzz", 1⟩ = .ok initState := by
  constructor
  · exact (claim6_group_error_key_skip demoDbs initState ⟨"weird", some "p", 0⟩).1 _
      (by simp only [get_pack_db, lowerStr_weird, String.reduceEq, reduceIte, or_self, or_false,
        false_or])
  · exact (claim6_group_error_key_skip demoDbs initState ⟨"ac1p", some "zzz", 1⟩).2
      demoDbs.packs_ac1p
      (by simp only [get_pack_db, lowerStr_ac1p, String.reduceEq, reduceIte, true_or, if_true])
      rfl

/-! ## C10 -/

lemma safe_band_malformed (v : FieldVal) (hv : isNumTriple v = false) :
    safe_band v = (0, 0, 0) := by
  unfold safe_band
  split
  · simp [isNumTriple] at hv
  · rfl

/-- C10: a band field that is not a 3-element sequence of float-convertible
values is turned into (0.0, 0.0, 0.0) by `_safe_band`; consequently neither
the pack loop (`applyPack`) nor the archetype step of
`compute_load_profile` raises on it, and it contributes nothing to the
energy or (non-negative) peak accumulators. -/
theorem claim10_malformed_band_zero :
    (∀ v : FieldVal, isNumTriple v = false → safe_band v = (0, 0, 0)) ∧
    (∀ (dbs : Dbs) (s : LoadState) (item : PackSel) (db : String → Option Pack) (p : Pack),
      get_pack_db dbs item.group = .ok db → item.key.bind db = some p →
      isNumTriple p.kwh_day = false → isNumTriple p.peak_w = false →
      0 ≤ s.peak_min → 0 ≤ s.peak_avg → 0 ≤ s.peak_max →
      applyPack dbs s item = .ok s) ∧
    (∀ (dbs : Dbs) (aid : String) (arch : Archetype),
      aid ≠ "" → dbs.archetypes aid = some arch →
      isNumTriple arch.base_load_kwh_day = false → isNumTriple arch.base_peak_w = false →
      archStep dbs (some aid) false = .ok initState) := by
  refine ⟨safe_band_malformed, ?_, ?_⟩
  · intro dbs s item db p hdb hp h1 h2 hpm hpa hpx
    unfold applyPack
    rw [hdb]
    dsimp only
    rw [hp]
    dsimp only
    rw [safe_band_malformed _ h1, safe_band_malformed _ h2]
    simp only [bandGet, ite_self, add_zero, max_eq_left hpm, max_eq_left hpa, max_eq_left hpx]
  · intro dbs aid arch haid harch h1 h2
    unfold archStep
    simp only [Bool.false_eq_true, if_false, if_neg haid, harch]
    rw [safe_band_malformed _ h1, safe_band_malformed _ h2]
    simp [initState]

/-- The database with malformed band fields used by the C10 witness. -/
def demoBadDbs : Dbs where
  archetypes := fun a =>
    if a = "bad" then some ⟨.notArr, .arr [.num 1, .bad, .num 2]⟩ else none
  packs_ac1p := fun k =>
    if k = "q" then some ⟨.arr [.num 1, .num 2], .notArr⟩ else none
  packs_ac3p := fun _ => none
  packs_dc12v := fun _ => none
  packs_dc24v := fun _ => none
  packs_dc48v := fun _ => none
  solar := fun _ => none

/-- C10 witness: a non-sequence band, a pack with a 2-element band and a
non-sequence band, and an archetype with a non-sequence band and a band
with a non-convertible member, all evaluated concretely. -/
theorem claim10_witness :
    safe_band .notArr = (0, 0, 0) ∧
      applyPack demoBadDbs initState ⟨"ac1p", some "q", 1⟩ = .ok initState ∧
      archStep demoBadDbs (some "bad") false = .ok initState := by
  refine ⟨claim10_malformed_band_zero.1 .notArr rfl, ?_, ?_⟩
  · exact claim10_malformed_band_zero.2.1 demoBadDbs initState ⟨"ac1p", some "q", 1⟩
      demoBadDbs.packs_ac1p ⟨.arr [.num 1, .num 2], .notArr⟩
      (by simp only [get_pack_db, lowerStr_ac1p, String.reduceEq, reduceIte, true_or, if_true])
      rfl rfl rfl (le_refl 0) (le_refl 0) (le_refl 0)
  · exact claim10_malformed_band_zero.2.2 demoBadDbs "bad" ⟨.notArr, .arr [.num 1, .bad, .num 2]⟩
      (by simp) rfl rfl rfl

/-! ## C5 -/

/-- C5: the required inverter wattage of `recommend_ecoflow_tiers` is the
profile's max peak × 1.2 when the max peak is non-zero; when the max peak
is zero the typical peak is the fallback basis (so typical × 1.2 when
non-zero); when both are zero it is 0. -/
theorem claim5_required_inverter (pb : ℚ × ℚ × ℚ) :
    (pb.2.2 ≠ 0 → required_inverter_w pb = pb.2.2 * 1.2) ∧
      (pb.2.2 = 0 → pb.2.1 ≠ 0 → required_inverter_w pb = pb.2.1 * 1.2) ∧
      (pb.2.2 = 0 → pb.2.1 = 0 → required_inverter_w pb = 0) := by
  refine ⟨?_, ?_, ?_⟩ <;> intro h
  · simp only [required_inverter_w, if_pos h]
  · intro h2
    simp only [required_inverter_w, h, if_neg (fun hc : ¬ (0:ℚ) = 0 => hc rfl)]
    rw [if_pos h2]
  · intro h2
    simp only [required_inverter_w, h, h2]
    norm_num

/-- C5 witness: the three branches evaluated at (0, 500, 800), (0, 500, 0)
and (0, 0, 0). -/
theorem claim5_witness :
    required_inverter_w (0, 500, 800) = (800 : ℚ) * 1.2 ∧
      required_inverter_w (0, 500, 0) = (500 : ℚ) * 1.2 ∧
      required_inverter_w (0, 0, 0) = 0 :=
  ⟨(claim5_required_inverter (0, 500, 800)).1 (by norm_num),
    (claim5_required_inverter (0, 500, 0)).2.1 rfl (by norm_num),
    (claim5_required_inverter (0, 0, 0)).2.2 rfl rfl⟩

/-! ## C7 -/

/-- C7: `compute_solar_profile` raises `ValueError` on an empty city,
`KeyError` on a city absent from the solar catalog, and otherwise returns
kWp = wattage / 1000, seasonal dailies = coefficient × kWp and
average = 0.6 × summer_daily + 0.4 × winter_daily, the three daily values
rounded to 3 decimals. -/
theorem claim7_solar_profile (solar_db : String → Option SolarCity)
    (city : String) (wp : ℚ) :
    (city = "" → ∃ msg, compute_solar_profile solar_db city wp = .error (.valueError msg)) ∧
      (city ≠ "" → solar_db city = none →
        ∃ msg, compute_solar_profile solar_db city wp = .error (.keyError msg)) ∧
      (∀ s w, city ≠ "" → solar_db city = some ⟨some (.num s), some (.num w)⟩ →
        compute_solar_profile solar_db city wp = .ok
          { city := city
            wp := wp
            kwp := wp / 1000
            summer_daily_kwh := pyRound 3 (s * (wp / 1000))
            winter_daily_kwh := pyRound 3 (w * (wp / 1000))
            avg_daily_kwh :=
              pyRound 3 (0.6 * (s * (wp / 1000)) + 0.4 * (w * (wp / 1000))) }) := by
  refine ⟨?_, ?_, ?_⟩
  · intro hc
    refine ⟨"City is required for solar calculation.", ?_⟩
    unfold compute_solar_profile
    rw [if_pos hc]
  · intro hc hdb
    refine ⟨"City '" ++ city ++ "' not found in solar_generation.json", ?_⟩
    unfold compute_solar_profile
    rw [if_neg hc, hdb]
  · intro s w hc hdb
    unfold compute_solar_profile
    rw [if_neg hc, hdb]
    dsimp only [getFloatD, floatOfJVal]
    simp only [Except.ok.injEq, SolarProfile.mk.injEq, true_and, and_true]
    congr 1
    ring

/-- C7 witness: the three branches of the solar contract evaluated on the
demo solar catalog (Istanbul: 5.2 / 2.8 kWh per kWp at 2000 Wp). -/
theorem claim7_witness :
    (∃ msg, compute_solar_profile demoDbs.solar "" 2000 = .error (.valueError msg)) ∧
      (∃ msg, compute_solar_profile demoDbs.solar "Nowhere" 2000 = .error (.keyError msg)) ∧
      compute_solar_profile demoDbs.solar "Istanbul" 2000 = .ok
        { city := "Istanbul"
          wp := 2000
          kwp := 2000 / 1000
          summer_daily_kwh := pyRound 3 ((26/5) * ((2000 : ℚ) / 1000))
          winter_daily_kwh := pyRound 3 ((14/5) * ((2000 : ℚ) / 1000))
          avg_daily_kwh :=
            pyRound 3 (0.6 * ((26/5) * ((2000 : ℚ) / 1000)) +
              0.4 * ((14/5) * ((2000 : ℚ) / 1000))) } :=
  ⟨(claim7_solar_profile demoDbs.solar "" 2000).1 rfl,
    (claim7_solar_profile demoDbs.solar "Nowhere" 2000).2.1 (by decide) rfl,
    (claim7_solar_profile demoDbs.solar "Istanbul" 2000).2.2 (26/5) (14/5) (by decide) rfl⟩

/-! ## C8 -/

lemma foldl_add_eq_sum (f : ℕ → ℚ) (l : List ℕ) (a : ℚ) :
    l.foldl (fun acc y => acc + f y) a = a + (l.map f).sum := by
  induction l generalizing a with
  | nil => simp
  | cons x xs ih => simp [ih, add_assoc]

/-- C8 (amended): `compute_savings_profile` returns the minimum of
consumption and generation as the daily offset (rounded to 3 decimals —
the rounding is the amendment), year-1 savings = offset × price × 365
rounded to 2, the multi-year sum Σ offset × price × (1+growth)^y × 365
over y < horizon rounded to 2, and yearly CO2 = offset × factor × 365
rounded to 2. -/
theorem claim8_savings_fields (c s price growth : ℚ) (horizon : ℤ) (co2 : ℚ) :
    compute_savings_profile c s price growth horizon co2 =
      { daily_offset_kwh := pyRound 3 (min c s)
        year1_savings_tl := pyRound 2 (min c s * price * 365)
        multi_year_savings_tl :=
          pyRound 2 (((List.range horizon.toNat).map
            (fun y => min c s * price * (1 + growth) ^ y * 365)).sum)
        yearly_co2_kg := pyRound 2 (min c s * co2 * 365)
        electricity_price_tl_per_kwh := price
        price_growth_rate := growth
        horizon_years := horizon
        co2_kg_per_kwh := co2 } := by
  unfold compute_savings_profile
  simp only [SavingsProfile.mk.injEq, true_and, and_true]
  rw [foldl_add_eq_sum (fun y => min c s * (price * (1 + growth) ^ y) * 365), zero_add]
  congr 1
  refine congrArg List.sum (List.map_congr_left ?_)
  intro y _
  ring

/-- C8 counterexample: with consumption 0.0001 and generation 1, the
returned `daily_offset_kwh` is 0, not the exact minimum 0.0001: the field
is rounded to 3 decimals, which the claim omits. -/
theorem claim8_cex :
    (compute_savings_profile (1/10000) 1 3.1 0.25 5 0.45).daily_offset_kwh ≠
      min (1/10000 : ℚ) 1 := by
  norm_num [compute_savings_profile, pyRound, pyRoundInt, min_def, -Int.self_sub_floor]

/-! ## C9 -/

/-- C9 (amended): `calculate_energy_profile` does not raise when the
archetype identifier is missing — it returns a zero-baseline profile —
and a call requesting solar output (positive wattage) with a missing city
returns normally with the solar and savings sections omitted; the
missing-archetype check lives in the HTTP boundary (src/app.py:61-63),
not in this function. -/
theorem claim9_missing_ids_no_raise (dbs : Dbs) (solar_wp : Option ℚ) :
    calculate_energy_profile dbs none none false none none solar_wp =
      .ok { archetype := none, expert_mode := false, daily_kwh_band := (0, 0, 0),
            peak_power_band_w := (0, 0, 0), selected_packs := [], solar := none,
            savings := none } := by
  simp only [calculate_energy_profile, compute_load_profile, archStep, packsLoop,
    finalizeLoad, initState]
  norm_num [pyRound, pyRoundInt, min_def, max_def, -Int.self_sub_floor]

/-- C9 counterexample: a concrete call with no archetype id and
solar_wp = 2000 but no city returns successfully (no validation and no
Not-Found error), with no solar section — the claim that
`calculate_energy_profile` raises on these inputs is false. -/
theorem claim9_cex :
    calculate_energy_profile demoDbs none none false none none (some 2000) =
      .ok { archetype := none, expert_mode := false, daily_kwh_band := (0, 0, 0),
            peak_power_band_w := (0, 0, 0), selected_packs := [], solar := none,
            savings := none } := by
  simp only [calculate_energy_profile, compute_load_profile, archStep, packsLoop,
    finalizeLoad, initState]
  norm_num [pyRound, pyRoundInt, min_def, max_def, -Int.self_sub_floor]

/-! ## C2 -/

/-- Boolean: the tier's capacity field, when present, parses as a number
(so the fallback sort key `float(t.get("capacity_wh_total", 0))` cannot
raise on it). -/
def capParses (td : Tier) : Bool :=
  match td.capacity_wh_total with
  | some .bad => false
  | _ => true

lemma fallback_cap_ok_of_capParses (td : Tier) (h : capParses td = true) :
    ∃ c, fallback_cap td = .ok c := by
  cases htd : td.capacity_wh_total with
  | none => exact ⟨0, by unfold fallback_cap; rw [htd]⟩
  | some v =>
    cases v with
    | num q => exact ⟨q, by unfold fallback_cap; rw [htd]; rfl⟩
    | bad => unfold capParses at h; rw [htd] at h; simp at h

lemma capsLoop_ok (tiers : List (String × Tier))
    (hwf : ∀ kv ∈ tiers, capParses kv.2 = true) :
    ∃ cs, capsLoop tiers = .ok cs ∧ cs.map Prod.fst = tiers ∧
      ∀ x ∈ cs, fallback_cap x.1.2 = .ok x.2 := by
  induction tiers with
  | nil => exact ⟨[], rfl, rfl, by simp⟩
  | cons kv rest ih =>
    obtain ⟨c, hc⟩ := fallback_cap_ok_of_capParses kv.2 (hwf kv (by simp))
    obtain ⟨cs, h1, h2, h3⟩ := ih (fun x hx => hwf x (by simp [hx]))
    refine ⟨(kv, c) :: cs, ?_, by simp [h2], ?_⟩
    · unfold capsLoop
      rw [hc, h1]
    · intro x hx
      rcases List.mem_cons.mp hx with h | h
      · subst h; exact hc
      · exact h3 x h

lemma foldl_max_spec (l : List ((String × Tier) × ℚ)) :
    ∀ x, (l.foldl (fun best y => if best.2 < y.2 then y else best) x) ∈ x :: l ∧
      ∀ y ∈ x :: l, y.2 ≤ (l.foldl (fun best y => if best.2 < y.2 then y else best) x).2 := by
  induction l with
  | nil =>
    intro x
    refine ⟨by simp, ?_⟩
    intro y hy
    simp only [List.mem_singleton] at hy
    simp [hy]
  | cons z l ih =>
    intro x
    obtain ⟨hmem, hle⟩ := ih (if x.2 < z.2 then z else x)
    constructor
    · simp only [List.foldl_cons]
      rcases List.mem_cons.mp hmem with h | h
      · rw [h]
        split_ifs <;> simp
      · exact List.mem_cons_of_mem _ (List.mem_cons_of_mem _ h)
    · intro y hy
      simp only [List.foldl_cons]
      rcases List.mem_cons.mp hy with h | h
      · have h1 : x.2 ≤ (if x.2 < z.2 then z else x).2 := by
          split_ifs with hxz
          · exact le_of_lt hxz
          · exact le_refl _
        exact h ▸ h1.trans (hle _ (by simp))
      rcases List.mem_cons.mp h with h2 | h2
      · have h1 : z.2 ≤ (if x.2 < z.2 then z else x).2 := by
          split_ifs with hxz
          · exact le_refl _
          · exact le_of_not_lt hxz
        exact h2 ▸ h1.trans (hle _ (by simp))
      · exact hle y (by simp [h2])

lemma argmax_first_spec (xs : List ((String × Tier) × ℚ)) (m : (String × Tier) × ℚ)
    (h : argmax_first xs = some m) : m ∈ xs ∧ ∀ y ∈ xs, y.2 ≤ m.2 := by
  cases xs with
  | nil => simp [argmax_first] at h
  | cons x rest =>
    simp only [argmax_first, Option.some.injEq] at h
    subst h
    exact (foldl_max_spec rest x)

lemma sorted_eligible_eq_nil_iff (t : List (String × Tier)) (rc ri : ℚ) :
    sorted_eligible t rc ri = [] ↔ eligible_tiers t rc ri = [] := by
  unfold sorted_eligible
  constructor
  · intro h
    have hp := List.mergeSort_perm (eligible_tiers t rc ri)
      (fun a b => decide (a.2 ≤ b.2))
    rw [h] at hp
    exact (hp.symm).eq_nil
  · intro h
    rw [h, List.mergeSort_nil]

/-- C2 (amended): for every non-empty tier catalog in which every present
capacity value parses as a number (which the fallback sort requires in
order not to raise), `recommend_ecoflow_tiers` returns a non-empty list;
when no tier is eligible it returns exactly one entry: the designated
default `tier_2_comfort` when that key is in the catalog, otherwise a tier
of maximal fallback capacity (the earliest such, by the stable descending
sort). -/
theorem claim2_nonempty_fallback (tiers : List (String × Tier)) (profile : RecProfile)
    (hne : tiers ≠ [])
    (hwf : ∀ kv ∈ tiers, capParses kv.2 = true) :
    ∃ l, recommend_ecoflow_tiers tiers profile = .ok l ∧ l ≠ [] ∧
      (eligible_tiers tiers (required_capacity_wh profile) (required_inverter_of profile) = [] →
        ∃ e, l = [e] ∧
          (∀ td, List.lookup "tier_2_comfort" tiers = some td →
            e = mkRecEntry "tier_2_comfort" td) ∧
          (List.lookup "tier_2_comfort" tiers = none →
            ∃ tid c, (tid, e.data) ∈ tiers ∧ e = mkRecEntry tid e.data ∧
              fallback_cap e.data = .ok c ∧
              ∀ kv ∈ tiers, ∀ c2, fallback_cap kv.2 = .ok c2 → c2 ≤ c)) := by
  unfold recommend_ecoflow_tiers
  dsimp only
  by_cases hemp : sorted_eligible tiers (required_capacity_wh profile)
      (required_inverter_of profile) = []
  · rw [hemp]
    simp only [List.isEmpty_nil, if_true]
    cases hlook : List.lookup "tier_2_comfort" tiers with
    | some td =>
      refine ⟨[mkRecEntry "tier_2_comfort" td], rfl, by simp, ?_⟩
      intro _
      refine ⟨mkRecEntry "tier_2_comfort" td, rfl, ?_, ?_⟩
      · intro td2 hl2
        cases hl2
        rfl
      · intro hl2
        cases hl2
    | none =>
      dsimp only
      obtain ⟨cs, hcs, hmap, hcaps⟩ := capsLoop_ok tiers hwf
      cases hcse : cs with
      | nil =>
        rw [hcse] at hmap
        exact absurd hmap.symm hne
      | cons c0 crest =>
        rw [hcse] at hcs hmap hcaps
        have hspec := argmax_first_spec (c0 :: crest) _ rfl
        rw [hcs]
        dsimp only [argmax_first]
        set m := List.foldl (fun best y => if best.2 < y.2 then y else best) c0 crest with hmdef
        have hmmem : m ∈ c0 :: crest := by rw [hmdef]; exact hspec.1
        have hmax : ∀ y ∈ c0 :: crest, y.2 ≤ m.2 := by rw [hmdef]; exact hspec.2
        refine ⟨[mkRecEntry m.1.1 m.1.2], rfl, by simp, ?_⟩
        intro _
        refine ⟨mkRecEntry m.1.1 m.1.2, rfl, ?_, ?_⟩
        · intro td2 hl2
          cases hl2
        · intro _
          refine ⟨m.1.1, m.2, ?_, rfl, ?_, ?_⟩
          · have hmm : m.1 ∈ (c0 :: crest).map Prod.fst := List.mem_map_of_mem Prod.fst hmmem
            rw [hmap] at hmm
            exact hmm
          · exact hcaps m hmmem
          · intro kv hkv c2 hc2
            have hkv2 : kv ∈ (c0 :: crest).map Prod.fst := by rw [hmap]; exact hkv
            obtain ⟨x, hx, hxeq⟩ := List.mem_map.mp hkv2
            have hxc : fallback_cap kv.2 = .ok x.2 := by
              rw [← hxeq]
              exact hcaps x hx
            rw [hxc] at hc2
            cases hc2
            exact hmax x hx
  · have : (sorted_eligible tiers (required_capacity_wh profile)
        (required_inverter_of profile)).isEmpty = false :=
      List.isEmpty_eq_false.mpr hemp
    rw [this]
    simp only [Bool.false_eq_true, if_false]
    refine ⟨_, rfl, ?_, ?_⟩
    · simp only [ne_eq, List.map_eq_nil_iff]
      exact hemp
    · intro helig
      exact absurd ((sorted_eligible_eq_nil_iff _ _ _).mpr helig) hemp

/-- Concrete tier entries: 2000 Wh / 1000 W and 5000 Wh / 2400 W. -/
def demoTier1 : Tier := ⟨none, some (.num 2000), some (.num 1000)⟩

/-- Second demo tier (the larger one). -/
def demoTier2 : Tier := ⟨none, some (.num 5000), some (.num 2400)⟩

/-- A two-tier catalog with no `tier_2_comfort` entry. -/
def demoTiers : List (String × Tier) := [("t1", demoTier1), ("t2", demoTier2)]

/-- The load profile of the spec's worked example, as read back by the
recommender. -/
def demoRecProfile : RecProfile :=
  ⟨.arr [.num 2, .num 3, .num (9/2)], .arr [.num 200, .num 400, .num 800]⟩

/-- An extreme profile (10 kWh typical, 5000 W peak) no demo tier satisfies. -/
def bigRecProfile : RecProfile :=
  ⟨.arr [.num 10, .num 10, .num 10], .arr [.num 5000, .num 5000, .num 5000]⟩

/-- A catalog whose single tier has a non-numeric capacity value. -/
def cexTiers : List (String × Tier) := [("t1", ⟨none, some .bad, none⟩)]

/-- A profile with no usable band fields (both default to (0,0,0)). -/
def cexRecProfile : RecProfile := ⟨.notArr, .notArr⟩

/-- C2 counterexample: on a non-empty catalog whose only tier has a
non-numeric `capacity_wh_total`, no tier is eligible and the fallback sort
key `float(t.get("capacity_wh_total", 0))` raises `ValueError`, so
`recommend_ecoflow_tiers` raises instead of returning a non-empty list. -/
theorem claim2_cex :
    cexTiers ≠ [] ∧
      recommend_ecoflow_tiers cexTiers cexRecProfile =
        .error (.valueError "could not convert value to float") := by
  have helig : eligible_tiers cexTiers (required_capacity_wh cexRecProfile)
      (required_inverter_of cexRecProfile) = [] := rfl
  refine ⟨by decide, ?_⟩
  unfold recommend_ecoflow_tiers sorted_eligible
  dsimp only
  rw [helig, List.mergeSort_nil]
  rfl

/-- C2 witness: the amended theorem applied to the two-tier demo catalog
and the extreme profile (no eligible tier, no default tier: the single
largest-capacity tier is returned). -/
theorem claim2_witness :
    ∃ l, recommend_ecoflow_tiers demoTiers bigRecProfile = .ok l ∧ l ≠ [] ∧
      (eligible_tiers demoTiers (required_capacity_wh bigRecProfile)
          (required_inverter_of bigRecProfile) = [] →
        ∃ e, l = [e] ∧
          (∀ td, List.lookup "tier_2_comfort" demoTiers = some td →
            e = mkRecEntry "tier_2_comfort" td) ∧
          (List.lookup "tier_2_comfort" demoTiers = none →
            ∃ tid c, (tid, e.data) ∈ demoTiers ∧ e = mkRecEntry tid e.data ∧
              fallback_cap e.data = .ok c ∧
              ∀ kv ∈ demoTiers, ∀ c2, fallback_cap kv.2 = .ok c2 → c2 ≤ c)) :=
  claim2_nonempty_fallback demoTiers bigRecProfile (by decide) (by decide)

/-! ## C4 -/

/-- C4: a tier whose two numeric fields parse is in the eligible list iff
its capacity is at least typical_daily_kwh × 1000 and its inverter rating
at least the required inverter wattage; the eligible list is sorted
ascending by capacity; and when it is non-empty `recommend_ecoflow_tiers`
returns exactly it. -/
theorem claim4_eligibility (tiers : List (String × Tier)) (profile : RecProfile) :
    List.Pairwise (fun a b => a.2 ≤ b.2)
      (sorted_eligible tiers (required_capacity_wh profile) (required_inverter_of profile)) ∧
      (∀ tid td c i, (tid, td) ∈ tiers →
        td.capacity_wh_total = some (.num c) →
        td.inverter_w_continuous = some (.num i) →
        ((∃ x ∈ sorted_eligible tiers (required_capacity_wh profile)
            (required_inverter_of profile), x.1.data = td) ↔
          (required_capacity_wh profile ≤ c ∧ required_inverter_of profile ≤ i))) ∧
      (sorted_eligible tiers (required_capacity_wh profile) (required_inverter_of profile) ≠ [] →
        recommend_ecoflow_tiers tiers profile =
          .ok ((sorted_eligible tiers (required_capacity_wh profile)
            (required_inverter_of profile)).map Prod.fst)) := by
  refine ⟨?_, ?_, ?_⟩
  · unfold sorted_eligible
    have h : List.Pairwise (fun a b : RecEntry × ℚ => decide (a.2 ≤ b.2) = true)
        ((eligible_tiers tiers (required_capacity_wh profile)
          (required_inverter_of profile)).mergeSort fun a b => decide (a.2 ≤ b.2)) :=
      List.sorted_mergeSort
        (fun a b c h1 h2 =>
          decide_eq_true ((of_decide_eq_true h1).trans (of_decide_eq_true h2)))
        (fun a b => by rcases le_total a.2 b.2 with h | h <;> simp [h])
        (eligible_tiers tiers (required_capacity_wh profile) (required_inverter_of profile))
    exact h.imp fun hab => of_decide_eq_true hab
  · intro tid td c i hmem hcap hinv
    unfold sorted_eligible
    constructor
    · rintro ⟨x, hx, hdata⟩
      rw [List.mem_mergeSort] at hx
      obtain ⟨kv, hkv, hfkv⟩ := List.mem_filterMap.mp hx
      revert hfkv
      split
      · rename_i c2 i2 hc2 hi2
        intro hfkv
        split_ifs at hfkv with hcond
        · cases hfkv
          dsimp only [mkRecEntry] at hdata
          rw [hdata] at hc2 hi2
          rw [hcap] at hc2
          rw [hinv] at hi2
          cases hc2
          cases hi2
          exact hcond
      · intro hfkv
        cases hfkv
    · rintro ⟨h1, h2⟩
      refine ⟨(mkRecEntry tid td, c), ?_, rfl⟩
      rw [List.mem_mergeSort]
      refine List.mem_filterMap.mpr ⟨(tid, td), hmem, ?_⟩
      rw [hcap, hinv]
      dsimp only
      rw [if_pos ⟨h1, h2⟩]
  · intro hne
    unfold recommend_ecoflow_tiers
    dsimp only
    rw [List.isEmpty_eq_false.mpr hne]
    simp only [Bool.false_eq_true, if_false]

/-- C4 witness: on the demo catalog and the worked-example profile
(required capacity 3000 Wh, required inverter 960 W), the 5000 Wh / 2400 W
tier is eligible (iff instantiated concretely) and the recommender returns
exactly the sorted eligible list. -/
theorem claim4_witness :
    ((∃ x ∈ sorted_eligible demoTiers (required_capacity_wh demoRecProfile)
        (required_inverter_of demoRecProfile), x.1.data = demoTier2) ↔
      (required_capacity_wh demoRecProfile ≤ 5000 ∧
        required_inverter_of demoRecProfile ≤ 2400)) ∧
      recommend_ecoflow_tiers demoTiers demoRecProfile =
        .ok ((sorted_eligible demoTiers (required_capacity_wh demoRecProfile)
          (required_inverter_of demoRecProfile)).map Prod.fst) := by
  have helig : eligible_tiers demoTiers (required_capacity_wh demoRecProfile)
      (required_inverter_of demoRecProfile) = [(mkRecEntry "t2" demoTier2, 5000)] := by
    norm_num [eligible_tiers, demoTiers, demoTier1, demoTier2, demoRecProfile,
      required_capacity_wh, required_inverter_of, required_inverter_w, safe_band,
      mkRecEntry, List.filterMap_cons]
  refine ⟨(claim4_eligibility demoTiers demoRecProfile).2.1 "t2" demoTier2 5000 2400
      (by simp [demoTiers]) rfl rfl,
    (claim4_eligibility demoTiers demoRecProfile).2.2 ?_⟩
  unfold sorted_eligible
  rw [helig, List.mergeSort_singleton]
  simp

end Engine
